import Mathlib

set_option maxRecDepth 40000

/-!
Verification of the ARNet device diagnostics resolver.

Shallow embedding of `src/ARNet/network_tools/device_resolver.py`
(class `DeviceResolver`: `_load_device_map`, `ping`, `check_port`,
`get_device_info`) and of the lightweight re-ping path in
`src/ARNet/main.py` (lines 161-170).

External effects are made explicit:
* the ping subprocess invocation becomes a `PingOutcome` input (the raw
  textual output, a wall-clock timeout, or a generic invocation error);
* each TCP connect attempt becomes a `PortOutcome` input (the errno
  returned by `connect_ex`, or a raised socket error);
* `datetime.now()` becomes a `now : String` parameter;
* probing activity is returned as an explicit trace (number of ping
  subprocess invocations, list of ports on which a connect was attempted)
  so that "no probing happened" claims are statable.

Latencies are modelled as rationals (the Python floats of interest here,
such as `10.2` or the average `11.3`, behave identically at this
granularity), and Python's `round(x, 2)` as round-half-to-even on `ℚ`.
-/

/-! ### Python-style string primitives (on `List Char`) -/

/-- Whitespace recognised by the model of Python's `str.strip()`. -/
def pyIsSpace (c : Char) : Bool :=
  c = ' ' || c = '\t' || c = '\n' || c = '\r'

/-- Model of Python's `str.strip()`: drop whitespace at both ends. -/
def stripChars (l : List Char) : List Char :=
  ((l.dropWhile pyIsSpace).reverse.dropWhile pyIsSpace).reverse

/-- Whether `l` starts with the pattern `pat`. -/
def startsWithPat : List Char → List Char → Bool
  | [], _ => true
  | _ :: _, [] => false
  | p :: ps, c :: cs => p = c && startsWithPat ps cs

/-- Fuel-driven worker for `splitOnSub`.  The pattern `p :: ps` is
nonempty, so each step consumes at least one character; fuel
`l.length` therefore always suffices and the fuel-exhausted branch is
unreachable on the initial call. -/
def splitOnSubFuel (p : Char) (ps : List Char) :
    Nat → List Char → List Char → List (List Char)
  | 0, l, cur => [cur.reverse ++ l]
  | _ + 1, [], cur => [cur.reverse]
  | fuel + 1, c :: rest, cur =>
    if startsWithPat (p :: ps) (c :: rest) then
      cur.reverse :: splitOnSubFuel p ps fuel (rest.drop ps.length) []
    else
      splitOnSubFuel p ps fuel rest (c :: cur)

/-- Model of Python's `str.split(pat)` for a nonempty pattern
`p :: ps`: split at each leftmost non-overlapping occurrence. -/
def splitOnSub (p : Char) (ps : List Char) (l : List Char) : List (List Char) :=
  splitOnSubFuel p ps l.length l []

/-- Model of Python's substring test `pat in s` (for a nonempty
pattern): the split has at least two parts iff the pattern occurs. -/
def containsSub (p : Char) (ps : List Char) (l : List Char) : Bool :=
  (splitOnSub p ps l).length ≥ 2

/-! ### Kernel-computable rational arithmetic

The `Rat` field operations are `@[irreducible]`, so the executable
definitions below use equivalent formulations through `Rat.divInt`
(which does reduce); the `qadd_eq` family proves them equal to the
field operations, and the abstract theorems use those equalities. -/

/-- Rational addition, computably: `a + b`. -/
def qadd (a b : ℚ) : ℚ :=
  Rat.divInt (a.num * b.den + b.num * a.den) (a.den * b.den)

/-- Rational subtraction, computably: `a - b`. -/
def qsub (a b : ℚ) : ℚ :=
  Rat.divInt (a.num * b.den - b.num * a.den) (a.den * b.den)

/-- Rational multiplication, computably: `a * b`. -/
def qmul (a b : ℚ) : ℚ :=
  Rat.divInt (a.num * b.num) (a.den * b.den)

/-- Rational division, computably: `a / b` (with `a / 0 = 0`). -/
def qdiv (a b : ℚ) : ℚ :=
  Rat.divInt (a.num * b.den) (a.den * b.num)

/-- Left-fold sum of a list of rationals (Python's `sum`). -/
def qsum (l : List ℚ) : ℚ :=
  l.foldl qadd 0

/-! ### Python numeric literal parsing -/

/-- Value of a nonempty all-digit string, `none` otherwise. -/
def digitsVal : List Char → Option Nat
  | [] => none
  | [c] => if c.isDigit then some (c.toNat - '0'.toNat) else none
  | c :: cs =>
    if c.isDigit then
      (digitsVal cs).map (fun v => (c.toNat - '0'.toNat) * 10 ^ cs.length + v)
    else none

/-- Model of Python's `float(s)` on the plain decimal forms that ping
output produces: optional sign, then `digits`, `digits.digits`,
`.digits` or `digits.` (no exponent, no inf/nan). Returns the exact
rational value, `none` on anything unparseable. -/
def pyFloat (l : List Char) : Option ℚ :=
  let core : List Char → Option ℚ := fun m =>
    match splitOnSub '.' [] m with
    | [intPart] => (digitsVal intPart).map (fun n => (n : ℚ))
    | [intPart, fracPart] =>
      match intPart, fracPart with
      | [], [] => none
      | [], f => (digitsVal f).map (fun n => Rat.divInt n (10 ^ f.length))
      | i, [] => (digitsVal i).map (fun n => (n : ℚ))
      | i, f =>
        match digitsVal i, digitsVal f with
        | some ni, some nf =>
          some (Rat.divInt (ni * 10 ^ f.length + nf) (10 ^ f.length))
        | _, _ => none
    | _ => none
  match l with
  | '-' :: rest => (core rest).map (fun q => -q)
  | '+' :: rest => core rest
  | _ => core l

/-- Model of Python's `int(s)` on registry port keys: optional
whitespace stripped, optional sign, nonempty digit run. -/
def pyInt (s : String) : Option Int :=
  match stripChars s.data with
  | '-' :: rest => (digitsVal rest).map (fun n => -(n : Int))
  | '+' :: rest => (digitsVal rest).map (fun n => (n : Int))
  | l => (digitsVal l).map (fun n => (n : Int))

/-! ### Python `round(x, 2)` -/

/-- Round a rational to the nearest integer, ties to even: Python's
`round(x)` (banker's rounding). Stated on the numerator: with
`f = ⌊q⌋`, the fractional part `q - f` equals
`(q.num - f * q.den) / q.den`, so comparing it against `1/2` is
comparing `2 * (q.num - f * q.den)` against `q.den` (the lemma
`roundHE_eq_half` below restates this in fractional-part form). -/
def roundHE (q : ℚ) : ℤ :=
  let f := ⌊q⌋
  let t := 2 * (q.num - f * q.den)
  if t < (q.den : ℤ) then f
  else if (q.den : ℤ) < t then f + 1
  else if f % 2 = 0 then f else f + 1

/-- Model of Python's `round(x, 2)`: `roundHE (q * 100) / 100`. -/
def round2 (q : ℚ) : ℚ :=
  Rat.divInt (roundHE (qmul q 100)) 100

/-- Minimum of a list of rationals (Python's `min` on a nonempty list;
the `[]` value is never used by the code paths below). -/
def listMin : List ℚ → ℚ
  | [] => 0
  | [x] => x
  | x :: y :: r => min x (listMin (y :: r))

/-- Maximum of a list of rationals (Python's `max` on a nonempty list). -/
def listMax : List ℚ → ℚ
  | [] => 0
  | [x] => x
  | x :: y :: r => max x (listMax (y :: r))

/-! ### The ping probe (`DeviceResolver.ping`) -/

/-- What the external ping subprocess did, from the caller's point of
view: produced textual output, hit the overall 2-second
`subprocess.run` timeout (`subprocess.TimeoutExpired`), or failed to be
invoked at all (any other exception). -/
inductive PingOutcome where
  | output (s : String)
  | timeout
  | error
  deriving DecidableEq, Repr

/-- Ping statistics record, mirroring the dict built by
`DeviceResolver.ping`: `avg`/`min`/`max` are `None` or rounded
latencies, `loss` is the numeric percentage inside the `loss` string
(e.g. `100` for `"100%"`), `status` the `'up'`/`'down'` string. -/
structure PingStats where
  avg : Option ℚ
  min : Option ℚ
  max : Option ℚ
  loss : ℚ
  status : String
  deriving DecidableEq, Repr

/-- The all-`None`, 100% loss, `'down'` record that
`DeviceResolver.ping` returns when no sample was extracted or the
overall timeout fired. -/
def pingDown : PingStats :=
  { avg := none, min := none, max := none, loss := 100, status := "down" }

/-- Sample extraction from one line of ping output, mirroring
`line.split("time=")[1].split("ms")[0].strip()` under the
`"time=" in line` guard, with `float(...)` failures skipped. -/
def extractTime (line : List Char) : Option ℚ :=
  let parts := splitOnSub 't' ['i', 'm', 'e', '='] line
  if parts.length < 2 then none
  else
    let afterEq := (parts.get? 1).getD []
    let beforeMs := ((splitOnSub 'm' ['s'] afterEq).get? 0).getD []
    pyFloat (stripChars beforeMs)

/-- All round-trip samples extracted from a ping output: under the
outer `"time=" in output` guard, every line contributes its parsed
sample (unparseable lines are skipped). -/
def extractTimes (s : String) : List ℚ :=
  if containsSub 't' ['i', 'm', 'e', '='] s.data then
    (splitOnSub '\n' [] s.data).filterMap extractTime
  else []

/-- Embedding of `DeviceResolver.ping` (device_resolver.py lines
33-105), parameterised by the subprocess outcome. Returns `none` for
the generic-exception path (Python `return None`); note the division
`len(times)/count` raises `ZeroDivisionError` when `count = 0` and at
least one sample was extracted, which the outer handler also turns
into `None`. -/
def ping (o : PingOutcome) (count : Nat) : Option PingStats :=
  match o with
  | .timeout => some pingDown
  | .error => none
  | .output s =>
    let times := extractTimes s
    if times.isEmpty then some pingDown
    else if count = 0 then none
    else some
      { avg := some (round2 (qdiv (qsum times) (times.length : ℚ)))
        min := some (round2 (listMin times))
        max := some (round2 (listMax times))
        loss := qmul (qsub 1 (qdiv (times.length : ℚ) (count : ℚ))) 100
        status := "up" }

/-! ### The port probe (`DeviceResolver.check_port`) -/

/-- What one TCP connect attempt did: `connect_ex` returned an error
code (`0` on success, an errno such as `ECONNREFUSED` or a timeout
indication otherwise), or the socket layer raised (caught by the bare
`except`). -/
inductive PortOutcome where
  | connected (res : Int)
  | sockError
  deriving DecidableEq, Repr

/-- Embedding of `DeviceResolver.check_port` (device_resolver.py lines
107-116): `True` iff `connect_ex` returned `0`; every raised socket
error is absorbed into `False`. -/
def check_port (o : PortOutcome) : Bool :=
  match o with
  | .connected res => res = 0
  | .sockError => false

/-! ### Registry data (`device_map` entries) -/

/-- One registry value, i.e. one JSON object in `device_map.json`:
the keys `get_device_info` reads (`type`, `location`, `model`,
`ports`), each `none` when absent, plus a count `extra` of any other
keys (so that Python's emptiness test `not device_details` is
faithful even for objects holding only unmodelled keys). -/
structure DeviceDetails where
  type : Option String
  location : Option String
  model : Option String
  ports : Option (List (String × String))
  extra : Nat := 0
  deriving DecidableEq, Repr

/-- The empty JSON object `{}`. -/
def emptyDetails : DeviceDetails :=
  { type := none, location := none, model := none, ports := none }

/-- Python's `not device_details`: the dict has no keys at all. -/
def DeviceDetails.isEmptyDict (d : DeviceDetails) : Bool :=
  d.type.isNone && d.location.isNone && d.model.isNone &&
    d.ports.isNone && d.extra = 0

/-! ### The aggregator (`DeviceResolver.get_device_info`) -/

/-- The decoded QR payload dict as `get_device_info` reads it:
`device_info.get('device_id')` and `device_info.get('ip')`, `none`
when the key is absent. -/
structure Payload where
  device_id : Option String
  ip : Option String
  deriving DecidableEq, Repr

/-- Python falsiness of an optional string: missing key or `''`. -/
def pyFalsy : Option String → Bool
  | none => true
  | some s => s = ""

/-- One value of the `ports` result dict: `{'service': ..,
'status': 'open'|'closed'}`. -/
structure PortEntry where
  service : String
  status : String
  deriving DecidableEq, Repr

/-- Python dict assignment `d[k] = v` on an association list: update
the existing key in place (keeping its position, as dicts do) or
append a new entry. -/
def dictInsert (d : List (Int × PortEntry)) (k : Int) (v : PortEntry) :
    List (Int × PortEntry) :=
  if d.any (fun e => e.1 = k) then
    d.map (fun e => if e.1 = k then (k, v) else e)
  else d ++ [(k, v)]

/-- The network as the resolver sees it during one `get_device_info`
call: what the single ping invocation does, and what the connect
attempt to each port does. -/
structure Backends where
  pingOut : PingOutcome
  portOut : Int → PortOutcome

/-- The `'open'`/`'closed'` string stored for a probed port. -/
def probeStatus (b : Backends) (n : Int) : String :=
  if check_port (b.portOut n) then "open" else "closed"

/-- The `ports` dict built by lines 160-180 of device_resolver.py:
fold dict assignment over the probed `(port, service)` pairs in
iteration order. -/
def buildPorts (b : Backends) (entries : List (Int × String)) :
    List (Int × PortEntry) :=
  entries.foldl (fun d e => dictInsert d e.1 ⟨e.2, probeStatus b e.1⟩) []

/-- The diagnostics dict assembled at lines 183-192. `ping` is an
`Option` because the re-ping path in main.py can store the `None`
that `DeviceResolver.ping` returns on a generic exception. -/
structure Diagnostics where
  device_id : String
  ip : String
  type : String
  location : String
  model : String
  ping : Option PingStats
  ports : List (Int × PortEntry)
  last_check : String
  deriving DecidableEq, Repr

/-- Which failure message `get_device_info` printed before returning
`None`: the missing-field message (line 133) or the
not-found-in-device-map message (line 139). -/
inductive ResolveError where
  | malformedPayload
  | deviceUnknown
  deriving DecidableEq, Repr

/-- Result of `get_device_info` together with its failure mode. -/
inductive ResolveOutcome where
  | ok (d : Diagnostics)
  | failure (e : ResolveError)
  deriving DecidableEq, Repr

/-- `get_device_info`'s return value plus the observable probing
trace: how many times the ping subprocess was invoked and, in order,
every port on which a TCP connect was attempted. -/
structure ResolveTrace where
  result : ResolveOutcome
  pingCalls : Nat
  portsProbed : List Int
  deriving DecidableEq, Repr

/-- The fixed `essential_ports` dict (lines 155-158), in iteration
order. -/
def essential_ports : List (Int × String) :=
  [(80, "HTTP"), (443, "HTTPS")]

/-- The device's declared ports after `int(port)` conversion, invalid
(unparseable) keys skipped with a log line (lines 170-180). -/
def declaredParsed (d : DeviceDetails) : List (Int × String) :=
  (d.ports.getD []).filterMap
    (fun e => (pyInt e.1).map (fun n => (n, e.2)))

/-- Embedding of `DeviceResolver.get_device_info` (device_resolver.py
lines 118-198) over a device map `m`, network backends `b` and clock
reading `now`. -/
def get_device_info (m : List (String × DeviceDetails)) (b : Backends)
    (now : String) (p : Payload) : ResolveTrace :=
  if pyFalsy p.device_id || pyFalsy p.ip then
    { result := .failure .malformedPayload, pingCalls := 0, portsProbed := [] }
  else
    match p.device_id, p.ip with
    | some device_id, some ip =>
      let device_details := (List.lookup device_id m).getD emptyDetails
      if device_details.isEmptyDict then
        { result := .failure .deviceUnknown, pingCalls := 0, portsProbed := [] }
      else
        let ping_stats := (ping b.pingOut 2).getD pingDown
        let entries := essential_ports ++ declaredParsed device_details
        { result := .ok
            { device_id := device_id
              ip := ip
              type := device_details.type.getD "unknown"
              location := device_details.location.getD "unknown"
              model := device_details.model.getD "unknown"
              ping := some ping_stats
              ports := buildPorts b entries
              last_check := now }
          pingCalls := 1
          portsProbed := entries.map (fun e => e.1) }
    | _, _ =>
      { result := .failure .malformedPayload, pingCalls := 0, portsProbed := [] }

/-! ### Registry loading (`DeviceResolver._load_device_map`) -/

/-- State of the registry source `device_map.json`: absent file,
present but unreadable/unparseable (`json.load` raises), or a parsed
mapping. -/
inductive LoadSource where
  | missing
  | malformed
  | ok (m : List (String × DeviceDetails))

/-- Embedding of `DeviceResolver._load_device_map` (device_resolver.py
lines 21-31). The second component records whether the error message
`"Error loading device map: ..."` was printed: the missing-file branch
returns `{}` silently, only the exception branch prints. -/
def _load_device_map : LoadSource → List (String × DeviceDetails) × Bool
  | .missing => ([], false)
  | .malformed => ([], true)
  | .ok m => (m, false)

/-! ### The lightweight re-ping path (main.py lines 161-170) -/

/-- Embedding of the periodic re-ping in `main` (main.py lines
161-170): if the record's `ip` is truthy, re-run only
`DeviceResolver.ping` against it and store the result into the `ping`
field of the existing record; nothing else is touched. -/
def refresh_ping (d : Diagnostics) (o : PingOutcome) : Diagnostics :=
  if d.ip = "" then d
  else { d with ping := ping o 2 }

/-! ### Observation helpers used by the statements -/

/-- Association-list lookup by port number (the reading of the
`ports` dict). -/
def alookup : List (Int × PortEntry) → Int → Option PortEntry
  | [], _ => none
  | e :: rest, k => if e.1 = k then some e.2 else alookup rest k

/-- Label that the last `(port, service)` pair with the given port
number would leave in a dict built by iterated assignment; `none` when
the port does not occur. Later entries override earlier ones, which is
exactly Python's repeated `d[k] = v`. -/
def lastLabel : List (Int × String) → Int → Option String
  | [], _ => none
  | e :: rest, k =>
    (lastLabel rest k).orElse (fun _ => if e.1 = k then some e.2 else none)


/-! ### Concrete fixtures used by witnesses and counterexamples -/

/-- Ping output carrying the two samples `10.2` and `12.4` of the
example scenario. -/
def out9 : String :=
  "PING 10.0.0.5: 56 data bytes\n64 bytes: icmp_seq=0 ttl=64 time=10.2 ms\n64 bytes: icmp_seq=1 ttl=64 time=12.4 ms\n"

/-- Ping output from which three samples parse although only two were
requested (duplicate `time=` lines). -/
def out3 : String :=
  "a time=10 ms\nb time=10 ms\nc time=10 ms\n"

/-- The registry record of the example scenario:
`{"SW1": {type: "switch", location: "rack-1", ports: {"22": "SSH"}}}`. -/
def sw1 : DeviceDetails :=
  { type := some "switch", location := some "rack-1", model := none,
    ports := some [("22", "SSH")] }

/-- A device declaring the single port `8080 → "custom"`. -/
def d8080 : DeviceDetails :=
  { type := some "router", location := none, model := none,
    ports := some [("8080", "custom")] }

/-- Network backends of the example scenario: the ping subprocess
prints `out9`, port `22` accepts the connection, every other port
refuses it (errno `111`). -/
def b9 : Backends :=
  { pingOut := .output out9
    portOut := fun n => if n = 22 then .connected 0 else .connected 111 }

/-- An already-resolved diagnostics record, input of the re-ping path. -/
def diag0 : Diagnostics :=
  { device_id := "SW1", ip := "10.0.0.5", type := "switch",
    location := "rack-1", model := "unknown", ping := some pingDown,
    ports := [(80, ⟨"HTTP", "closed"⟩), (443, ⟨"HTTPS", "closed"⟩)],
    last_check := "2024-01-01 00:00:00" }

/-! ## Helper lemmas

Bridging the computable `divInt` formulations to the field operations,
rounding facts, list bounds, and the dict-building characterisation. -/

theorem num_eq_mul_den (a : ℚ) : (a.num : ℚ) = a * (a.den : ℚ) :=
  (div_eq_iff (by exact_mod_cast a.den_pos.ne' : ((a.den : ℚ)) ≠ 0)).mp (Rat.num_div_den a)

theorem qadd_eq (a b : ℚ) : qadd a b = a + b := by
  have ha : ((a.den : ℚ)) ≠ 0 := by exact_mod_cast a.den_pos.ne'
  have hb : ((b.den : ℚ)) ≠ 0 := by exact_mod_cast b.den_pos.ne'
  rw [qadd, Rat.divInt_eq_div]
  push_cast
  rw [div_eq_iff (by positivity)]
  rw [num_eq_mul_den a, num_eq_mul_den b]
  ring

theorem qsub_eq (a b : ℚ) : qsub a b = a - b := by
  have ha : ((a.den : ℚ)) ≠ 0 := by exact_mod_cast a.den_pos.ne'
  have hb : ((b.den : ℚ)) ≠ 0 := by exact_mod_cast b.den_pos.ne'
  rw [qsub, Rat.divInt_eq_div]
  push_cast
  rw [div_eq_iff (by positivity)]
  rw [num_eq_mul_den a, num_eq_mul_den b]
  ring

theorem qmul_eq (a b : ℚ) : qmul a b = a * b := by
  have ha : ((a.den : ℚ)) ≠ 0 := by exact_mod_cast a.den_pos.ne'
  have hb : ((b.den : ℚ)) ≠ 0 := by exact_mod_cast b.den_pos.ne'
  rw [qmul, Rat.divInt_eq_div]
  push_cast
  rw [div_eq_iff (by positivity)]
  rw [num_eq_mul_den a, num_eq_mul_den b]
  ring

theorem qdiv_eq (a b : ℚ) : qdiv a b = a / b := by
  have ha : ((a.den : ℚ)) ≠ 0 := by exact_mod_cast a.den_pos.ne'
  rcases eq_or_ne b 0 with rfl | hb0
  · simp [qdiv, Rat.divInt_eq_div]
  · have hbn : (b.num : ℚ) ≠ 0 := by
      exact_mod_cast fun h => hb0 (Rat.num_eq_zero.mp (by exact_mod_cast h))
    have hb : ((b.den : ℚ)) ≠ 0 := by exact_mod_cast b.den_pos.ne'
    rw [qdiv, Rat.divInt_eq_div]
    push_cast
    rw [div_eq_div_iff (by positivity) (by positivity)]
    · rw [num_eq_mul_den a, num_eq_mul_den b]
      ring

theorem qsum_aux (l : List ℚ) : ∀ a : ℚ, l.foldl qadd a = a + l.sum := by
  induction l with
  | nil => intro a; simp
  | cons x r ih => intro a; simp [List.foldl, qadd_eq, ih, add_assoc]

theorem qsum_eq (l : List ℚ) : qsum l = l.sum := by
  rw [qsum, qsum_aux]; ring

theorem sub_floor_lt_half_iff (q : ℚ) :
    2 * (q.num - ⌊q⌋ * q.den) < (q.den : ℤ) ↔ q - ⌊q⌋ < 1 / 2 := by
  have hd : (0 : ℚ) < (q.den : ℚ) := by exact_mod_cast q.den_pos
  rw [show (2 * (q.num - ⌊q⌋ * q.den) < (q.den : ℤ)) ↔ ((2 * (q.num - ⌊q⌋ * q.den) : ℤ) : ℚ) < ((q.den : ℤ) : ℚ) from Int.cast_lt.symm]
  push_cast
  rw [num_eq_mul_den q]
  constructor <;> intro h <;> nlinarith

theorem half_lt_sub_floor_iff (q : ℚ) :
    (q.den : ℤ) < 2 * (q.num - ⌊q⌋ * q.den) ↔ 1 / 2 < q - ⌊q⌋ := by
  have hd : (0 : ℚ) < (q.den : ℚ) := by exact_mod_cast q.den_pos
  rw [show ((q.den : ℤ) < 2 * (q.num - ⌊q⌋ * q.den)) ↔ (((q.den : ℤ) : ℚ)) < ((2 * (q.num - ⌊q⌋ * q.den) : ℤ) : ℚ) from Int.cast_lt.symm]
  push_cast
  rw [num_eq_mul_den q]
  constructor <;> intro h <;> nlinarith

theorem roundHE_eq_half (q : ℚ) :
    roundHE q =
      if q - ⌊q⌋ < 1 / 2 then ⌊q⌋
      else if 1 / 2 < q - ⌊q⌋ then ⌊q⌋ + 1
      else if ⌊q⌋ % 2 = 0 then ⌊q⌋ else ⌊q⌋ + 1 := by
  rw [roundHE]
  rw [if_congr (sub_floor_lt_half_iff q) rfl (if_congr (half_lt_sub_floor_iff q) rfl rfl)]

theorem roundHE_mono {a b : ℚ} (h : a ≤ b) : roundHE a ≤ roundHE b := by
  rcases lt_or_le ⌊a⌋ ⌊b⌋ with hf | hf
  · rw [roundHE_eq_half, roundHE_eq_half]
    split_ifs <;> omega
  · have hfe : ⌊a⌋ = ⌊b⌋ := le_antisymm (Int.floor_mono h) hf
    rw [roundHE_eq_half, roundHE_eq_half, ← hfe]
    have hr : a - ⌊a⌋ ≤ b - ⌊a⌋ := by linarith
    split_ifs <;> first | omega | linarith

theorem round2_eq (q : ℚ) : round2 q = ((roundHE (q * 100) : ℤ) : ℚ) / 100 := by
  rw [round2, qmul_eq, Rat.divInt_eq_div]
  norm_num

theorem round2_mono {a b : ℚ} (h : a ≤ b) : round2 a ≤ round2 b := by
  rw [round2_eq, round2_eq]
  have h1 : roundHE (a * 100) ≤ roundHE (b * 100) :=
    roundHE_mono (by nlinarith)
  have h2 : ((roundHE (a * 100) : ℤ) : ℚ) ≤ ((roundHE (b * 100) : ℤ) : ℚ) := by
    exact_mod_cast h1
  exact (div_le_div_iff_of_pos_right (by norm_num : (0:ℚ) < 100)).mpr h2

theorem listMin_mul_le_sum : ∀ l : List ℚ, l ≠ [] → (l.length : ℚ) * listMin l ≤ l.sum := by
  intro l
  induction l with
  | nil => intro h; simp at h
  | cons x r ih =>
    intro _
    cases r with
    | nil => simp [listMin]
    | cons y s =>
      have hr : (y :: s : List ℚ) ≠ [] := by simp
      have h1 := ih hr
      have hmin : listMin (x :: y :: s) ≤ listMin (y :: s) := min_le_right _ _
      have hminx : listMin (x :: y :: s) ≤ x := min_le_left _ _
      simp only [List.length_cons, List.sum_cons] at h1 ⊢
      push_cast at h1 ⊢
      nlinarith [mul_le_mul_of_nonneg_left hmin
        (by positivity : (0 : ℚ) ≤ (s.length : ℚ) + 1)]

theorem sum_le_listMax_mul : ∀ l : List ℚ, l ≠ [] → l.sum ≤ (l.length : ℚ) * listMax l := by
  intro l
  induction l with
  | nil => intro h; simp at h
  | cons x r ih =>
    intro _
    cases r with
    | nil => simp [listMax]
    | cons y s =>
      have hr : (y :: s : List ℚ) ≠ [] := by simp
      have h1 := ih hr
      have hmax : listMax (y :: s) ≤ listMax (x :: y :: s) := le_max_right _ _
      have hmaxx : x ≤ listMax (x :: y :: s) := le_max_left _ _
      simp only [List.length_cons, List.sum_cons] at h1 ⊢
      push_cast at h1 ⊢
      nlinarith [mul_le_mul_of_nonneg_left hmax
        (by positivity : (0 : ℚ) ≤ (s.length : ℚ) + 1)]

theorem listMin_le_avg (l : List ℚ) (h : l ≠ []) :
    listMin l ≤ l.sum / (l.length : ℚ) := by
  have hp : (0 : ℚ) < (l.length : ℚ) := by
    have : 0 < l.length := List.length_pos.mpr h
    exact_mod_cast this
  rw [le_div_iff₀ hp]
  have := listMin_mul_le_sum l h
  linarith [this]

theorem avg_le_listMax (l : List ℚ) (h : l ≠ []) :
    l.sum / (l.length : ℚ) ≤ listMax l := by
  have hp : (0 : ℚ) < (l.length : ℚ) := by
    have : 0 < l.length := List.length_pos.mpr h
    exact_mod_cast this
  rw [div_le_iff₀ hp]
  have := sum_le_listMax_mul l h
  linarith [this]

theorem alookup_dictInsert_self (d : List (Int × PortEntry)) (k : Int) (v : PortEntry) :
    alookup (dictInsert d k v) k = some v := by
  rw [dictInsert]
  split_ifs with h
  · induction d with
    | nil => simp at h
    | cons e rest ih =>
      simp only [List.any_cons, Bool.or_eq_true, decide_eq_true_eq] at h
      by_cases he : e.1 = k
      · simp [alookup, he]
      · have hr : rest.any (fun e => e.1 = k) = true := by
          rcases h with h | h
          · exact absurd h he
          · exact h
        simp only [List.map_cons, if_neg he]
        rw [alookup, if_neg he]
        exact ih hr
  · induction d with
    | nil => simp [alookup]
    | cons e rest ih =>
      simp only [List.any_cons, Bool.or_eq_true, decide_eq_true_eq, not_or] at h
      simp only [List.cons_append]
      rw [alookup, if_neg h.1]
      exact ih (by simpa using h.2)

theorem alookup_mapReplace_ne (d : List (Int × PortEntry)) (k : Int) (v : PortEntry)
    (k' : Int) (h : k' ≠ k) :
    alookup (d.map (fun e => if e.1 = k then (k, v) else e)) k' = alookup d k' := by
  induction d with
  | nil => simp [alookup]
  | cons e rest ih =>
    by_cases he : e.1 = k
    · simp only [List.map_cons, if_pos he]
      rw [alookup, alookup, if_neg (fun hh => h hh.symm), if_neg (by rw [he]; exact fun hh => h hh.symm)]
      exact ih
    · simp only [List.map_cons, if_neg he]
      rw [alookup, alookup]
      by_cases hek : e.1 = k'
      · simp [hek]
      · rw [if_neg hek, if_neg hek]
        exact ih

theorem alookup_dictInsert_ne (d : List (Int × PortEntry)) (k : Int) (v : PortEntry)
    (k' : Int) (h : k' ≠ k) :
    alookup (dictInsert d k v) k' = alookup d k' := by
  rw [dictInsert]
  split_ifs with hany
  · exact alookup_mapReplace_ne d k v k' h
  · induction d with
    | nil =>
      simp only [List.nil_append, alookup]
      rw [if_neg (fun hh => h hh.symm)]
    | cons e rest ih =>
      simp only [List.any_cons, Bool.or_eq_true, decide_eq_true_eq, not_or] at hany
      simp only [List.cons_append]
      rw [alookup, alookup]
      by_cases hek : e.1 = k'
      · simp [hek]
      · rw [if_neg hek, if_neg hek]
        refine ih ?_
        simpa using hany.2

theorem buildPorts_alookup_aux (b : Backends) (entries : List (Int × String)) :
    ∀ (d : List (Int × PortEntry)) (k : Int),
      alookup (entries.foldl (fun d e => dictInsert d e.1 ⟨e.2, probeStatus b e.1⟩) d) k =
        (lastLabel entries k).elim (alookup d k) (fun sv => some ⟨sv, probeStatus b k⟩) := by
  induction entries with
  | nil => intro d k; simp [lastLabel]
  | cons e rest ih =>
    intro d k
    rw [List.foldl_cons, ih]
    rcases hrest : lastLabel rest k with _ | s
    · simp only [lastLabel, hrest, Option.orElse]
      by_cases he : e.1 = k
      · rw [if_pos he, Option.elim, Option.elim]
        subst he
        rw [alookup_dictInsert_self]
      · rw [if_neg he, Option.elim, Option.elim]
        exact alookup_dictInsert_ne d e.1 _ k (fun hh => he hh.symm)
    · simp [lastLabel, hrest, Option.orElse]

theorem buildPorts_alookup (b : Backends) (entries : List (Int × String)) (k : Int) :
    alookup (buildPorts b entries) k =
      (lastLabel entries k).map (fun sv => (⟨sv, probeStatus b k⟩ : PortEntry)) := by
  rw [buildPorts, buildPorts_alookup_aux]
  rcases lastLabel entries k with _ | s <;> simp [alookup]

theorem lastLabel_append (l1 l2 : List (Int × String)) (k : Int) :
    lastLabel (l1 ++ l2) k = (lastLabel l2 k).orElse (fun _ => lastLabel l1 k) := by
  induction l1 with
  | nil =>
    simp only [List.nil_append, lastLabel]
    rcases lastLabel l2 k with _ | s <;> rfl
  | cons e rest ih =>
    have : lastLabel ((e :: rest) ++ l2) k =
        (lastLabel (rest ++ l2) k).orElse (fun _ => if e.1 = k then some e.2 else none) := rfl
    rw [this, ih, lastLabel]
    rcases lastLabel l2 k with _ | s <;> rcases lastLabel rest k with _ | t <;> rfl

theorem resolve_malformed (m : List (String × DeviceDetails)) (b : Backends)
    (now : String) (p : Payload)
    (h : (pyFalsy p.device_id || pyFalsy p.ip) = true) :
    get_device_info m b now p =
      { result := .failure .malformedPayload, pingCalls := 0, portsProbed := [] } := by
  rw [get_device_info, if_pos h]

theorem resolve_unknown (m : List (String × DeviceDetails)) (b : Backends)
    (now : String) (id ip : String)
    (hid : id ≠ "") (hip : ip ≠ "")
    (hdd : ((List.lookup id m).getD emptyDetails).isEmptyDict = true) :
    get_device_info m b now { device_id := some id, ip := some ip } =
      { result := .failure .deviceUnknown, pingCalls := 0, portsProbed := [] } := by
  simp [get_device_info, pyFalsy, hid, hip, hdd]

theorem resolve_known (m : List (String × DeviceDetails)) (b : Backends)
    (now : String) (id ip : String) (dd : DeviceDetails)
    (hid : id ≠ "") (hip : ip ≠ "")
    (hdd : (List.lookup id m).getD emptyDetails = dd)
    (hne : dd.isEmptyDict = false) :
    get_device_info m b now { device_id := some id, ip := some ip } =
      { result := .ok
          { device_id := id
            ip := ip
            type := dd.type.getD "unknown"
            location := dd.location.getD "unknown"
            model := dd.model.getD "unknown"
            ping := some ((ping b.pingOut 2).getD pingDown)
            ports := buildPorts b (essential_ports ++ declaredParsed dd)
            last_check := now }
        pingCalls := 1
        portsProbed := (essential_ports ++ declaredParsed dd).map (fun e => e.1) } := by
  simp [get_device_info, pyFalsy, hid, hip, hdd, hne]

/-! ## Claims -/

/-- C1: resolving a payload whose `device_id` is not in the registry
fails with the device-unknown outcome and performs no probing: zero
ping invocations and no port-connect attempts. -/
theorem C1_unknown_device_no_probe (m : List (String × DeviceDetails))
    (b : Backends) (now : String) (id ip : String)
    (hid : id ≠ "") (hip : ip ≠ "") (hmiss : List.lookup id m = none) :
    get_device_info m b now { device_id := some id, ip := some ip } =
      { result := .failure .deviceUnknown, pingCalls := 0, portsProbed := [] } :=
  resolve_unknown m b now id ip hid hip (by rw [hmiss]; rfl)

/-- Witness for C1 at a concrete registry and payload. -/
theorem C1_witness :
    List.lookup "R9" [("SW1", sw1)] = none ∧
    get_device_info [("SW1", sw1)] b9 "t" { device_id := some "R9", ip := some "10.0.0.9" } =
      { result := .failure .deviceUnknown, pingCalls := 0, portsProbed := [] } :=
  ⟨by decide, C1_unknown_device_no_probe [("SW1", sw1)] b9 "t" "R9" "10.0.0.9"
    (by decide) (by decide) (by decide)⟩

/-- C2 (amended): when `k ≥ 1` samples parse out of `n ≥ 1` requested,
the probe reports `up`, the `avg`/`min`/`max` of exactly those samples
rounded to two decimals with `min ≤ avg ≤ max`, and a loss percentage
of exactly `(1 - k/n) * 100` — unclamped, hence negative when more
samples parse than requested. -/
theorem C2_up_statistics (s : String) (n : Nat) (ts : List ℚ)
    (hts : extractTimes s = ts) (hne : ts ≠ []) (hn : n ≠ 0) :
    ping (.output s) n = some
      { avg := some (round2 (ts.sum / (ts.length : ℚ)))
        min := some (round2 (listMin ts))
        max := some (round2 (listMax ts))
        loss := (1 - (ts.length : ℚ) / (n : ℚ)) * 100
        status := "up" } ∧
    round2 (listMin ts) ≤ round2 (ts.sum / (ts.length : ℚ)) ∧
    round2 (ts.sum / (ts.length : ℚ)) ≤ round2 (listMax ts) := by
  refine ⟨?_, round2_mono (listMin_le_avg ts hne), round2_mono (avg_le_listMax ts hne)⟩
  have hempty : ts.isEmpty = false := List.isEmpty_eq_false.mpr hne
  simp only [ping, hts, hempty, Bool.false_eq_true, if_false, hn, if_neg hn]
  rw [qsum_eq, qdiv_eq, qdiv_eq, qsub_eq, qmul_eq]

/-- Witness for C2 on the two-sample output of the example scenario. -/
theorem C2_witness :
    extractTimes out9 = [mkRat 51 5, mkRat 62 5] ∧
    (ping (.output out9) 2 = some
      { avg := some (round2 (([mkRat 51 5, mkRat 62 5] : List ℚ).sum / (([mkRat 51 5, mkRat 62 5] : List ℚ).length : ℚ)))
        min := some (round2 (listMin [mkRat 51 5, mkRat 62 5]))
        max := some (round2 (listMax [mkRat 51 5, mkRat 62 5]))
        loss := (1 - (([mkRat 51 5, mkRat 62 5] : List ℚ).length : ℚ) / ((2 : Nat) : ℚ)) * 100
        status := "up" } ∧
      round2 (listMin [mkRat 51 5, mkRat 62 5]) ≤ round2 (([mkRat 51 5, mkRat 62 5] : List ℚ).sum / (([mkRat 51 5, mkRat 62 5] : List ℚ).length : ℚ)) ∧
      round2 (([mkRat 51 5, mkRat 62 5] : List ℚ).sum / (([mkRat 51 5, mkRat 62 5] : List ℚ).length : ℚ)) ≤ round2 (listMax [mkRat 51 5, mkRat 62 5])) :=
  ⟨by decide, C2_up_statistics out9 2 [mkRat 51 5, mkRat 62 5] (by decide) (by decide) (by decide)⟩

/-- Counterexample to C2 as stated: an output with three parsed samples
of two requested yields a negative loss value, so the loss is not
clamped into `[0, 1]`. -/
theorem C2_counterexample :
    ping (.output out3) 2 = some
      { avg := some 10, min := some 10, max := some 10, loss := -50, status := "up" } ∧
    (-50 : ℚ) < 0 :=
  ⟨by decide, by norm_num⟩

/-- C3: for every known device the ports dict is keyed by exactly the
union of the well-known set `{80 ↦ HTTP, 443 ↦ HTTPS}` and the device's
parseable declared ports, declared labels overriding well-known labels
on collision and every entry carrying its probed status; in particular
a device declaring `8080 → "custom"` yields exactly the ascending
sequence `80 (HTTP), 443 (HTTPS), 8080 (custom)`. -/
theorem C3_port_union_override :
    (∀ (m : List (String × DeviceDetails)) (b : Backends) (now id ip : String)
        (dd : DeviceDetails), id ≠ "" → ip ≠ "" →
        (List.lookup id m).getD emptyDetails = dd → dd.isEmptyDict = false →
        (get_device_info m b now { device_id := some id, ip := some ip }).result =
          .ok { device_id := id
                ip := ip
                type := dd.type.getD "unknown"
                location := dd.location.getD "unknown"
                model := dd.model.getD "unknown"
                ping := some ((ping b.pingOut 2).getD pingDown)
                ports := buildPorts b (essential_ports ++ declaredParsed dd)
                last_check := now } ∧
        ∀ k : Int,
          alookup (buildPorts b (essential_ports ++ declaredParsed dd)) k =
            ((lastLabel (declaredParsed dd) k).orElse
               (fun _ => lastLabel essential_ports k)).map
              (fun sv => (⟨sv, probeStatus b k⟩ : PortEntry))) ∧
    (∀ (b : Backends) (now : String),
        (get_device_info [("D8", d8080)] b now
            { device_id := some "D8", ip := some "1.2.3.4" }).result =
          .ok { device_id := "D8"
                ip := "1.2.3.4"
                type := "router"
                location := "unknown"
                model := "unknown"
                ping := some ((ping b.pingOut 2).getD pingDown)
                ports := [(80, ⟨"HTTP", probeStatus b 80⟩),
                          (443, ⟨"HTTPS", probeStatus b 443⟩),
                          (8080, ⟨"custom", probeStatus b 8080⟩)]
                last_check := now }) := by
  constructor
  · intro m b now id ip dd hid hip hdd hne
    refine ⟨by rw [resolve_known m b now id ip dd hid hip hdd hne], ?_⟩
    intro k
    rw [buildPorts_alookup, lastLabel_append]
  · intro b now
    simp [get_device_info, pyFalsy, DeviceDetails.isEmptyDict, d8080, declaredParsed, pyInt,
          stripChars, pyIsSpace, digitsVal, essential_ports, buildPorts, dictInsert, List.lookup]

/-- Witness for C3: the general part instantiated at the `8080`
device, read back at port `8080` (declared label) and port `80`
(well-known label). -/
theorem C3_witness :
    ((List.lookup "D8" [("D8", d8080)]).getD emptyDetails = d8080 ∧
      d8080.isEmptyDict = false) ∧
    alookup (buildPorts b9 (essential_ports ++ declaredParsed d8080)) 8080 =
      ((lastLabel (declaredParsed d8080) 8080).orElse
         (fun _ => lastLabel essential_ports 8080)).map
        (fun sv => (⟨sv, probeStatus b9 8080⟩ : PortEntry)) ∧
    alookup (buildPorts b9 (essential_ports ++ declaredParsed d8080)) 80 =
      ((lastLabel (declaredParsed d8080) 80).orElse
         (fun _ => lastLabel essential_ports 80)).map
        (fun sv => (⟨sv, probeStatus b9 80⟩ : PortEntry)) :=
  ⟨⟨by decide, by decide⟩,
    ((C3_port_union_override.1 [("D8", d8080)] b9 "t" "D8" "1.2.3.4" d8080
      (by decide) (by decide) (by decide) (by decide)).2 8080),
    ((C3_port_union_override.1 [("D8", d8080)] b9 "t" "D8" "1.2.3.4" d8080
      (by decide) (by decide) (by decide) (by decide)).2 80)⟩

/-- C4: a ping output with zero extracted samples, and likewise an
expired overall timeout, produce the `down` record: loss `100%` and
absent statistics. -/
theorem C4_zero_samples_down :
    (∀ (s : String) (n : Nat), extractTimes s = [] →
      ping (.output s) n = some pingDown) ∧
    (∀ n : Nat, ping .timeout n = some pingDown) ∧
    pingDown.status = "down" ∧ pingDown.loss = 100 ∧
    pingDown.avg = none ∧ pingDown.min = none ∧ pingDown.max = none := by
  refine ⟨?_, fun n => rfl, rfl, rfl, rfl, rfl, rfl⟩
  intro s n h
  simp [ping, h]

/-- Witness for C4 on an output with no `time=` sample. -/
theorem C4_witness :
    extractTimes "Request timed out." = [] ∧
    ping (.output "Request timed out.") 2 = some pingDown :=
  ⟨by decide, C4_zero_samples_down.1 "Request timed out." 2 (by decide)⟩

/-- C5: the port probe never escapes with an error: it classifies a
zero `connect_ex` result as open and everything else — nonzero error
codes and raised socket errors alike — as closed. -/
theorem C5_check_port_classification :
    ∀ o : PortOutcome, check_port o = true ↔ o = .connected 0 := by
  intro o
  cases o with
  | connected r => simp [check_port]
  | sockError => simp [check_port]

/-- C6 (amended): the re-ping path replaces only the `ping` field;
`device_id`, `ip`, `type`, `location`, `model`, `ports` and also
`last_check` are all left unchanged — the timestamp is not updated. -/
theorem C6_refresh_updates_only_ping (d : Diagnostics) (o : PingOutcome)
    (h : d.ip ≠ "") :
    (refresh_ping d o).ping = ping o 2 ∧
    (refresh_ping d o).device_id = d.device_id ∧
    (refresh_ping d o).ip = d.ip ∧
    (refresh_ping d o).type = d.type ∧
    (refresh_ping d o).location = d.location ∧
    (refresh_ping d o).model = d.model ∧
    (refresh_ping d o).ports = d.ports ∧
    (refresh_ping d o).last_check = d.last_check := by
  rw [refresh_ping, if_neg h]
  exact ⟨rfl, rfl, rfl, rfl, rfl, rfl, rfl, rfl⟩

/-- Witness for C6 on a concrete record and ping outcome. -/
theorem C6_witness :
    diag0.ip ≠ "" ∧
    ((refresh_ping diag0 (.output out9)).ping = ping (.output out9) 2 ∧
      (refresh_ping diag0 (.output out9)).device_id = diag0.device_id ∧
      (refresh_ping diag0 (.output out9)).ip = diag0.ip ∧
      (refresh_ping diag0 (.output out9)).type = diag0.type ∧
      (refresh_ping diag0 (.output out9)).location = diag0.location ∧
      (refresh_ping diag0 (.output out9)).model = diag0.model ∧
      (refresh_ping diag0 (.output out9)).ports = diag0.ports ∧
      (refresh_ping diag0 (.output out9)).last_check = diag0.last_check) :=
  ⟨by decide, C6_refresh_updates_only_ping diag0 (.output out9) (by decide)⟩

/-- Counterexample to C6 as stated: after a refresh the timestamp still
equals the input's `last_check` — `captured_at` is not updated, only
the `ping` field changes. -/
theorem C6_counterexample :
    refresh_ping diag0 (.output out9) =
      { diag0 with
          ping := some ({ avg := some (mkRat 113 10), min := some (mkRat 51 5),
                          max := some (mkRat 62 5), loss := 0,
                          status := "up" } : PingStats) } ∧
    (refresh_ping diag0 (.output out9)).last_check = diag0.last_check ∧
    diag0.last_check = "2024-01-01 00:00:00" := by
  refine ⟨by decide, by decide, rfl⟩

/-- C7: a payload with a missing or empty `device_id` or `ip` is
rejected as malformed before any registry lookup or probing: no ping
invocation and no port connects. -/
theorem C7_malformed_payload (m : List (String × DeviceDetails)) (b : Backends)
    (now : String) (p : Payload)
    (h : pyFalsy p.device_id = true ∨ pyFalsy p.ip = true) :
    get_device_info m b now p =
      { result := .failure .malformedPayload, pingCalls := 0, portsProbed := [] } :=
  resolve_malformed m b now p (by rcases h with h | h <;> simp [h])

/-- Witness for C7 on a payload with no `device_id`. -/
theorem C7_witness :
    pyFalsy (Payload.mk none (some "1.2.3.4")).device_id = true ∧
    get_device_info [("SW1", sw1)] b9 "t" (Payload.mk none (some "1.2.3.4")) =
      { result := .failure .malformedPayload, pingCalls := 0, portsProbed := [] } :=
  ⟨rfl, C7_malformed_payload [("SW1", sw1)] b9 "t" _ (Or.inl rfl)⟩

/-- C8 (amended): a missing registry source yields an empty mapping
silently (no error message), a malformed one yields an empty mapping
with the error message printed; in both cases every subsequent
resolution behaves as against an empty registry. -/
theorem C8_load_failure_empty_registry :
    _load_device_map .missing = ([], false) ∧
    _load_device_map .malformed = ([], true) ∧
    (∀ (src : LoadSource) (b : Backends) (now id ip : String),
      id ≠ "" → ip ≠ "" → (_load_device_map src).1 = [] →
      get_device_info (_load_device_map src).1 b now
          { device_id := some id, ip := some ip } =
        { result := .failure .deviceUnknown, pingCalls := 0, portsProbed := [] }) := by
  refine ⟨rfl, rfl, ?_⟩
  intro src b now id ip hid hip hm
  rw [hm]
  exact resolve_unknown [] b now id ip hid hip rfl

/-- Witness for C8: lookups after a failed load hit the empty registry. -/
theorem C8_witness :
    (_load_device_map .missing).1 = [] ∧
    get_device_info (_load_device_map .missing).1 b9 "t"
        { device_id := some "SW1", ip := some "10.0.0.5" } =
      { result := .failure .deviceUnknown, pingCalls := 0, portsProbed := [] } :=
  ⟨rfl, C8_load_failure_empty_registry.2.2 .missing b9 "t" "SW1" "10.0.0.5"
    (by decide) (by decide) rfl⟩

/-- Counterexample to C8 as stated: a missing source returns the empty
mapping without any error signal (no message is printed), while the
malformed source does signal — so "missing or malformed ⟹ signals"
fails on the missing case. -/
theorem C8_counterexample :
    _load_device_map .missing = ([], false) ∧
    (_load_device_map .malformed).2 = true :=
  ⟨rfl, rfl⟩

/-- C9: the example scenario end to end — registry `SW1 ↦ {switch,
rack-1, "22" ↦ SSH}`, ping samples `10.2` and `12.4` of 2 requested,
ports 80 and 443 refused and 22 accepted — resolves to the `up` record
with `avg 11.3`, `min 10.2`, `max 12.4`, loss `0`, and the ports
sequence `80 (HTTP, closed), 443 (HTTPS, closed), 22 (SSH, open)`. -/
theorem C9_example_scenario :
    get_device_info [("SW1", sw1)] b9 "2024-01-01 00:00:00"
        { device_id := some "SW1", ip := some "10.0.0.5" } =
      { result := .ok
          { device_id := "SW1"
            ip := "10.0.0.5"
            type := "switch"
            location := "rack-1"
            model := "unknown"
            ping := some
              { avg := some (mkRat 113 10), min := some (mkRat 51 5),
                max := some (mkRat 62 5), loss := 0, status := "up" }
            ports := [(80, ⟨"HTTP", "closed"⟩), (443, ⟨"HTTPS", "closed"⟩),
                      (22, ⟨"SSH", "open"⟩)]
            last_check := "2024-01-01 00:00:00" }
        pingCalls := 1
        portsProbed := [80, 443, 22] } ∧
    mkRat 113 10 = (11.3 : ℚ) ∧ mkRat 51 5 = (10.2 : ℚ) ∧ mkRat 62 5 = (12.4 : ℚ) := by
  refine ⟨by decide, ?_, ?_, ?_⟩ <;> rw [Rat.mkRat_eq_div] <;> norm_num

/-- C10: a `device_id` that is present in the registry but mapped to
the empty record fails exactly like an unregistered device: the
device-unknown outcome, no ping invocation, no port connects, and the
same result as resolving against an empty registry. -/
theorem C10_empty_metadata_like_unknown (m : List (String × DeviceDetails))
    (b : Backends) (now : String) (id ip : String) (d : DeviceDetails)
    (hid : id ≠ "") (hip : ip ≠ "")
    (hfound : List.lookup id m = some d) (hempty : d.isEmptyDict = true) :
    get_device_info m b now { device_id := some id, ip := some ip } =
      { result := .failure .deviceUnknown, pingCalls := 0, portsProbed := [] } ∧
    get_device_info m b now { device_id := some id, ip := some ip } =
      get_device_info [] b now { device_id := some id, ip := some ip } := by
  have h1 := resolve_unknown m b now id ip hid hip (by rw [hfound]; simpa using hempty)
  have h2 := resolve_unknown [] b now id ip hid hip rfl
  exact ⟨h1, h1.trans h2.symm⟩

/-- Witness for C10 on a registry holding `"E0" ↦ {}`. -/
theorem C10_witness :
    List.lookup "E0" [("E0", emptyDetails)] = some emptyDetails ∧
    emptyDetails.isEmptyDict = true ∧
    (get_device_info [("E0", emptyDetails)] b9 "t"
        { device_id := some "E0", ip := some "10.0.0.7" } =
      { result := .failure .deviceUnknown, pingCalls := 0, portsProbed := [] } ∧
    get_device_info [("E0", emptyDetails)] b9 "t"
        { device_id := some "E0", ip := some "10.0.0.7" } =
      get_device_info [] b9 "t" { device_id := some "E0", ip := some "10.0.0.7" }) :=
  ⟨by decide, by decide,
    C10_empty_metadata_like_unknown [("E0", emptyDetails)] b9 "t" "E0" "10.0.0.7"
      emptyDetails (by decide) (by decide) (by decide) (by decide)⟩
